import Mathlib

/-!
Verification of the scheduled notification jobs of `metabase.task.follow-up-emails`
(follow-up and abandonment admin emails) and of the permission-lookup defaults in
the enterprise permission selectors, as a shallow embedding in Lean 4.

Timestamps are natural numbers (seconds); the current time is part of the
environment.  Database query results are modelled as folds over explicit lists
of rows, and the try/catch/finally around the e-mail send is modelled by a total
function that records the attempted send, the caught-and-logged error and the
flag update.
-/

namespace FollowUpEmails

/-- A duration of `n` weeks, in seconds. -/
def weeks (n : Nat) : Nat := n * 7 * 24 * 60 * 60

/-- Modelled from the spec: `metabase.util.date-2/older-than?` is not part of the
reviewed sources (only its callers are).  The spec reads "instance age ≥ N weeks"
and "timestamp is ≥ N weeks old", so a timestamp `t` is older than duration `d`
at time `now` exactly when `t + d ≤ now`. -/
def olderThan (now t d : Nat) : Bool := t + d ≤ now

/-- A row of the `User` table, with the fields the module queries. -/
structure User where
  email : String
  date_joined : Nat
  is_superuser : Bool
  is_active : Bool
deriving Repr, DecidableEq

/-- The database state the module queries: users plus the timestamps of the
activity-log and view-log rows. -/
structure Db where
  users : List User
  activities : List Nat
  viewLogs : List Nat
deriving Repr, DecidableEq

/-- The two persisted boolean settings (`follow-up-email-sent` and
`abandonment-email-sent`), both defaulting to `false`. -/
structure Settings where
  follow_up_email_sent : Bool
  abandonment_email_sent : Bool
deriving Repr, DecidableEq

/-- The job environment: the e-mail and tracking settings, the wall clock, and
whether the e-mail subsystem throws on this send. -/
structure Env where
  email_configured : Bool
  anon_tracking_enabled : Bool
  now : Nat
  send_throws : Bool
deriving Repr, DecidableEq

/-- The observable outcome of one job run: the settings afterwards, the list of
`(recipient, template)` pairs handed to the e-mail subsystem, and the log lines
emitted. -/
structure RunResult where
  settings : Settings
  attempts : List (String × String)
  logs : List String
deriving Repr, DecidableEq

/-- A run that touches nothing: no send attempt, no log, settings unchanged. -/
def noop (s : Settings) : RunResult := { settings := s, attempts := [], logs := [] }

/-- The row with the smallest `date_joined` (the first row under
`{:order-by [:date_joined]}`); on a tie the earlier row of the list wins. -/
def oldestBy (us : List User) : Option User :=
  us.foldl
    (fun acc u =>
      match acc with
      | none => some u
      | some v => if u.date_joined < v.date_joined then some u else some v)
    none

/-- `(db/select-one ... conditions {:order-by [:date_joined]})`: the
earliest-joined user satisfying the condition. -/
def oldestUserWhere (p : User → Bool) (us : List User) : Option User :=
  oldestBy (us.filter p)

/-- `instance-creation-timestamp`: the `:date_joined` of the first `User`
(ordered by `date_joined` ascending); `none` when there are no users. -/
def instance_creation_timestamp (db : Db) : Option Nat :=
  (oldestBy db.users).map User.date_joined

/-- `:%max.timestamp` over a table: the greatest timestamp, `none` on an empty
table (SQL `max` of no rows is NULL). -/
def maxOpt (l : List Nat) : Option Nat :=
  l.foldl
    (fun acc t =>
      match acc with
      | none => some t
      | some m => some (max m t))
    none

/-- Modelled from the spec: `metabase.email.messages/send-follow-up-email!` is
not part of the reviewed sources; the spec's e-mail subsystem is
`sendTemplatedEmail(address, templateKey) -> throws on failure`.  Whether this
send throws is carried by the environment. -/
def sendTemplatedEmail (env : Env) (addr tmpl : String) : Except String Unit :=
  if env.send_throws then Except.error ("failed to send " ++ tmpl ++ " to " ++ addr)
  else Except.ok ()

/-- `send-follow-up-email!`: requires e-mail configured, tracking enabled and
the flag still false; resolves the earliest-joined ACTIVE superuser; the
try/catch/finally records the attempt, logs a caught error, and always sets
`follow-up-email-sent` to true. -/
def send_follow_up_email (env : Env) (db : Db) (s : Settings) : RunResult :=
  if env.email_configured && env.anon_tracking_enabled && !s.follow_up_email_sent then
    match oldestUserWhere (fun u => u.is_superuser && u.is_active) db.users with
    | some admin =>
      let res := sendTemplatedEmail env admin.email "follow-up"
      let logs :=
        match res with
        | Except.ok _ => []
        | Except.error e => ["Problem sending follow-up email: " ++ e]
      { settings := { s with follow_up_email_sent := true },
        attempts := [(admin.email, "follow-up")],
        logs := logs }
    | none => noop s
  else noop s

/-- The `FollowUpEmail` job body: done if the flag is set; otherwise needs an
instance-creation timestamp at least 2 weeks old before delegating to
`send-follow-up-email!`. -/
def FollowUpEmail (env : Env) (db : Db) (s : Settings) : RunResult :=
  if !s.follow_up_email_sent then
    match instance_creation_timestamp db with
    | some created =>
      if olderThan env.now created (weeks 2) then send_follow_up_email env db s
      else noop s
    | none => noop s
  else noop s

/-- "absent OR at least `d` old" for an optional timestamp. -/
def optOlder (now : Nat) (o : Option Nat) (d : Nat) : Bool :=
  match o with
  | none => true
  | some t => olderThan now t d

/-- The four-argument `should-send-abandoment-email?`: instance creation present
and ≥ 4 weeks old, and each of the three usage signals absent or ≥ 2 weeks
old. -/
def should_send_abandoment_email
    (now : Nat) (instance_creation last_user last_activity last_view : Option Nat) : Bool :=
  (match instance_creation with
   | none => false
   | some t => olderThan now t (weeks 4)) &&
  optOlder now last_user (weeks 2) &&
  optOlder now last_activity (weeks 2) &&
  optOlder now last_view (weeks 2)

/-- The zero-argument `should-send-abandoment-email?`: feeds the four-argument
version from the union-all query (max `date_joined` over users, max timestamp
over activities and over view-log rows) and `instance-creation-timestamp`. -/
def should_send_abandoment_email_db (env : Env) (db : Db) : Bool :=
  should_send_abandoment_email env.now
    (instance_creation_timestamp db)
    (maxOpt (db.users.map User.date_joined))
    (maxOpt db.activities)
    (maxOpt db.viewLogs)

/-- `send-abandoment-email-if-needed!`: resolves the earliest-joined superuser
(active or not); when the predicate holds, logs the info line and attempts the
"abandon" send, with the same catch/finally shape as the follow-up job. -/
def send_abandoment_email_if_needed (env : Env) (db : Db) (s : Settings) : RunResult :=
  match oldestUserWhere (fun u => u.is_superuser) db.users with
  | some admin =>
    if should_send_abandoment_email_db env db then
      let res := sendTemplatedEmail env admin.email "abandon"
      let errLogs :=
        match res with
        | Except.ok _ => []
        | Except.error e => ["Problem sending abandonment email: " ++ e]
      { settings := { s with abandonment_email_sent := true },
        attempts := [(admin.email, "abandon")],
        logs := "Sending abandonment email!" :: errLogs }
    else noop s
  | none => noop s

/-- The `AbandonmentEmail` job body: done if the flag is set; otherwise requires
e-mail configured and tracking enabled before delegating to
`send-abandoment-email-if-needed!`. -/
def AbandonmentEmail (env : Env) (db : Db) (s : Settings) : RunResult :=
  if !s.abandonment_email_sent then
    if env.email_configured && env.anon_tracking_enabled then
      send_abandoment_email_if_needed env db s
    else noop s
  else noop s

/-- A concrete inactive superuser, used for closed instances of the theorems. -/
def exAdmin : User :=
  { email := "admin@example.com", date_joined := 0, is_superuser := true, is_active := false }

/-- A concrete active superuser. -/
def exActiveAdmin : User :=
  { email := "active@example.com", date_joined := 0, is_superuser := true, is_active := true }

/-- A database holding one inactive superuser and no activity or view rows. -/
def exDb : Db := { users := [exAdmin], activities := [], viewLogs := [] }

/-- A database holding one active superuser and no activity or view rows. -/
def exActiveDb : Db := { users := [exActiveAdmin], activities := [], viewLogs := [] }

/-- The empty database: no users, no activity rows, no view rows. -/
def emptyDb : Db := { users := [], activities := [], viewLogs := [] }

/-- E-mail configured, tracking enabled, clock at 5 weeks, sends succeed. -/
def exEnv : Env :=
  { email_configured := true, anon_tracking_enabled := true, now := weeks 5,
    send_throws := false }

/-- The same environment with a throwing e-mail subsystem. -/
def exThrowEnv : Env := { exEnv with send_throws := true }

/-- The same environment with e-mail delivery not configured. -/
def noEmailEnv : Env := { exEnv with email_configured := false }

/-- Both sent-flags still false. -/
def initSettings : Settings := { follow_up_email_sent := false, abandonment_email_sent := false }

/-- Both sent-flags already true. -/
def sentSettings : Settings := { follow_up_email_sent := true, abandonment_email_sent := true }

end FollowUpEmails

namespace Permissions

/-- One step of icepick's `getIn`: look a key up in an object, modelled as an
association list; `none` when the key is absent. -/
def getIn1 {α β : Type} [BEq α] (m : List (α × β)) (k : α) : Option β :=
  (m.find? (fun p => p.1 == k)).map Prod.snd

/-- `GroupsPermissions`: group id ↦ database id ↦ permission name ↦ value. -/
abbrev GroupsPermissions := List (Nat × List (Nat × List (String × String)))

/-- `getIn(permissions, [groupId, databaseId, key])` on a `GroupsPermissions`
object. -/
def getIn3 (permissions : GroupsPermissions) (groupId databaseId : Nat) (k : String) :
    Option String :=
  (getIn1 permissions groupId).bind fun dbMap =>
    (getIn1 dbMap databaseId).bind fun entityMap => getIn1 entityMap k

/-- `getDetailsPermission`: the value at `[groupId, databaseId, "details"]`,
defaulting to `DETAILS_PERMISSION_OPTIONS.no.value`, i.e. `"no"`. -/
def getDetailsPermission (permissions : GroupsPermissions) (groupId databaseId : Nat) :
    String :=
  (getIn3 permissions groupId databaseId "details").getD "no"

/-- `ApplicationPermissions`: group id ↦ permission key ↦ value. -/
abbrev ApplicationPermissions := List (Nat × List (String × String))

/-- `getIn(permissions, [groupId, permissionKey])` on an
`ApplicationPermissions` object. -/
def getIn2 (permissions : ApplicationPermissions) (groupId : Nat) (permissionKey : String) :
    Option String :=
  (getIn1 permissions groupId).bind fun m => getIn1 m permissionKey

/-- `getApplicationPermission`: the value at `[groupId, permissionKey]`,
defaulting to `"no"`. -/
def getApplicationPermission (permissions : ApplicationPermissions) (groupId : Nat)
    (permissionKey : String) : String :=
  (getIn2 permissions groupId permissionKey).getD "no"

end Permissions

namespace FollowUpEmails

lemma send_follow_up_email_already_sent (env : Env) (db : Db) (s : Settings)
    (h : s.follow_up_email_sent = true) : send_follow_up_email env db s = noop s := by
  simp [send_follow_up_email, h]

lemma FollowUpEmail_already_sent (env : Env) (db : Db) (s : Settings)
    (h : s.follow_up_email_sent = true) : FollowUpEmail env db s = noop s := by
  simp [FollowUpEmail, h]

lemma AbandonmentEmail_already_sent (env : Env) (db : Db) (s : Settings)
    (h : s.abandonment_email_sent = true) : AbandonmentEmail env db s = noop s := by
  simp [AbandonmentEmail, h]

/-- Every run of the follow-up job either changes nothing or records exactly the
one "follow-up" attempt to the resolved active admin while setting the flag. -/
lemma FollowUpEmail_cases (env : Env) (db : Db) (s : Settings) :
    FollowUpEmail env db s = noop s ∨
      ∃ admin,
        oldestUserWhere (fun u => u.is_superuser && u.is_active) db.users = some admin ∧
          FollowUpEmail env db s =
            { settings := { s with follow_up_email_sent := true },
              attempts := [(admin.email, "follow-up")],
              logs :=
                match sendTemplatedEmail env admin.email "follow-up" with
                | Except.ok _ => []
                | Except.error e => ["Problem sending follow-up email: " ++ e] } := by
  unfold FollowUpEmail
  by_cases hf : s.follow_up_email_sent
  · simp [hf]
  · simp only [hf, Bool.not_false, if_true]
    cases hic : instance_creation_timestamp db with
    | none => simp
    | some created =>
      by_cases hold : olderThan env.now created (weeks 2)
      · simp only [hold, if_true]
        unfold send_follow_up_email
        by_cases hgate : env.email_configured && env.anon_tracking_enabled
        · simp only [hgate, hf, Bool.not_false, Bool.and_true, if_true]
          cases hadmin : oldestUserWhere (fun u => u.is_superuser && u.is_active) db.users with
          | none => simp
          | some admin =>
            right
            exact ⟨admin, rfl, rfl⟩
        · simp [hgate, hf]
      · simp [hold]

/-- Every run of the abandonment job either changes nothing or records exactly
the one "abandon" attempt to the resolved superuser while setting the flag. -/
lemma AbandonmentEmail_cases (env : Env) (db : Db) (s : Settings) :
    AbandonmentEmail env db s = noop s ∨
      ∃ admin,
        oldestUserWhere (fun u => u.is_superuser) db.users = some admin ∧
          AbandonmentEmail env db s =
            { settings := { s with abandonment_email_sent := true },
              attempts := [(admin.email, "abandon")],
              logs := "Sending abandonment email!" ::
                match sendTemplatedEmail env admin.email "abandon" with
                | Except.ok _ => []
                | Except.error e => ["Problem sending abandonment email: " ++ e] } := by
  unfold AbandonmentEmail
  by_cases ha : s.abandonment_email_sent
  · simp [ha]
  · simp only [ha, Bool.not_false, if_true]
    by_cases hgate : env.email_configured && env.anon_tracking_enabled
    · simp only [hgate, if_true]
      unfold send_abandoment_email_if_needed
      cases hadmin : oldestUserWhere (fun u => u.is_superuser) db.users with
      | none => simp
      | some admin =>
        by_cases hs : should_send_abandoment_email_db env db
        · simp only [hs, if_true]
          right
          exact ⟨admin, rfl, rfl⟩
        · simp [hs]
    · simp [hgate]

/-- If the gate of the abandonment job fails — flag already set, e-mail not
configured, or tracking disabled — the run changes nothing. -/
lemma AbandonmentEmail_noop_of_gate (env : Env) (db : Db) (s : Settings)
    (h : s.abandonment_email_sent = true ∨ env.email_configured = false ∨
      env.anon_tracking_enabled = false) :
    AbandonmentEmail env db s = noop s := by
  unfold AbandonmentEmail
  rcases h with h | h | h <;> simp [h]

/-- The characterisation of the four-argument predicate used by several proofs
below. -/
lemma should_send_spec (now : Nat) (ic lu la lv : Option Nat) :
    should_send_abandoment_email now ic lu la lv = true ↔
      ((∃ t, ic = some t ∧ t + weeks 4 ≤ now) ∧
       (∀ t, lu = some t → t + weeks 2 ≤ now) ∧
       (∀ t, la = some t → t + weeks 2 ≤ now) ∧
       (∀ t, lv = some t → t + weeks 2 ≤ now)) := by
  cases ic <;> cases lu <;> cases la <;> cases lv <;>
    simp [should_send_abandoment_email, optOlder, olderThan, and_assoc]

/-- C2: the four-argument `should-send-abandoment-email?` returns `true` iff the
instance-creation timestamp is present and at least 4 weeks old, and each of the
last-user-joined, last-activity and last-view timestamps is absent or at least
2 weeks old. -/
theorem C2_should_send_abandoment_email_iff
    (now : Nat) (ic lu la lv : Option Nat) :
    should_send_abandoment_email now ic lu la lv = true ↔
      ((∃ t, ic = some t ∧ t + weeks 4 ≤ now) ∧
       (∀ t, lu = some t → t + weeks 2 ≤ now) ∧
       (∀ t, la = some t → t + weeks 2 ≤ now) ∧
       (∀ t, lv = some t → t + weeks 2 ≤ now)) :=
  should_send_spec now ic lu la lv

/-- C2 witness: an instance created 5 weeks ago with all three signals absent
satisfies the characterisation, so the predicate returns `true` there. -/
theorem C2_should_send_abandoment_email_iff_witness :
    should_send_abandoment_email (weeks 5) (some 0) none none none = true :=
  (C2_should_send_abandoment_email_iff (weeks 5) (some 0) none none none).mpr
    ⟨⟨0, rfl, by decide⟩, by simp, by simp, by simp⟩

/-- C8: with instance age 5 weeks and last user joined 1 week ago the predicate
is `false` whatever the other two signals are; with last user and last activity
absent, last view 3 weeks old and instance age 5 weeks it is `true`; and from
any satisfying assignment, making any single one of the four timestamps too
recent makes it `false`. -/
theorem C8_abandoment_condition_sensitivity :
    (∀ now ic lu (la lv : Option Nat), now = ic + weeks 5 → now = lu + weeks 1 →
      should_send_abandoment_email now (some ic) (some lu) la lv = false) ∧
    (∀ now ic lv, now = ic + weeks 5 → now = lv + weeks 3 →
      should_send_abandoment_email now (some ic) none none (some lv) = true) ∧
    (∀ now ic lu la lv, should_send_abandoment_email now ic lu la lv = true →
      (∀ t, now < t + weeks 4 →
        should_send_abandoment_email now (some t) lu la lv = false) ∧
      (∀ t, now < t + weeks 2 →
        should_send_abandoment_email now ic (some t) la lv = false) ∧
      (∀ t, now < t + weeks 2 →
        should_send_abandoment_email now ic lu (some t) lv = false) ∧
      (∀ t, now < t + weeks 2 →
        should_send_abandoment_email now ic lu la (some t) = false)) := by
  refine ⟨?_, ?_, ?_⟩
  · intro now ic lu la lv hic hlu
    subst hic
    rw [← Bool.not_eq_true, should_send_spec]
    rintro ⟨-, h2, -, -⟩
    have h := h2 lu rfl
    simp only [weeks] at h hlu
    omega
  · intro now ic lv hic hlv
    subst hic
    rw [should_send_spec]
    refine ⟨⟨ic, rfl, ?_⟩, by simp, by simp, ?_⟩
    · simp only [weeks]; omega
    · intro t ht
      injection ht with ht
      subst ht
      simp only [weeks] at hlv ⊢
      omega
  · intro now ic lu la lv _
    refine ⟨?_, ?_, ?_, ?_⟩ <;> intro t ht <;> rw [← Bool.not_eq_true, should_send_spec]
    · rintro ⟨⟨t', ht', h1⟩, -, -, -⟩
      injection ht' with ht'
      omega
    · rintro ⟨-, h2, -, -⟩
      have := h2 t rfl
      omega
    · rintro ⟨-, -, h3, -⟩
      have := h3 t rfl
      omega
    · rintro ⟨-, -, -, h4⟩
      have := h4 t rfl
      omega

/-- C8 witness: instantiating the three parts at concrete timestamps. -/
theorem C8_abandoment_condition_sensitivity_witness :
    should_send_abandoment_email (weeks 5) (some 0) (some (weeks 4)) none none = false ∧
    should_send_abandoment_email (weeks 5) (some 0) none none (some (weeks 2)) = true ∧
    should_send_abandoment_email (weeks 5) (some 0) none none (some (weeks 4)) = false := by
  refine ⟨?_, ?_, ?_⟩
  · exact C8_abandoment_condition_sensitivity.1 (weeks 5) 0 (weeks 4) none none
      (by decide) (by decide)
  · exact C8_abandoment_condition_sensitivity.2.1 (weeks 5) 0 (weeks 2) (by decide) (by decide)
  · exact (C8_abandoment_condition_sensitivity.2.2 (weeks 5) (some 0) none none (some (weeks 2))
      (C8_abandoment_condition_sensitivity.2.1 (weeks 5) 0 (weeks 2)
        (by decide) (by decide))).2.2.2 (weeks 4) (by decide)

/-- C1: once a job's sent-flag is true, running that job calls the e-mail
subsystem zero times, and neither job ever resets either sent-flag to false, so
each notification is sent at most once per instance lifetime. -/
theorem C1_sent_flags_one_way :
    ∀ (env : Env) (db : Db) (s : Settings),
      (s.follow_up_email_sent = true → (FollowUpEmail env db s).attempts = []) ∧
      (s.abandonment_email_sent = true → (AbandonmentEmail env db s).attempts = []) ∧
      (s.follow_up_email_sent = true →
        (FollowUpEmail env db s).settings.follow_up_email_sent = true ∧
        (AbandonmentEmail env db s).settings.follow_up_email_sent = true) ∧
      (s.abandonment_email_sent = true →
        (FollowUpEmail env db s).settings.abandonment_email_sent = true ∧
        (AbandonmentEmail env db s).settings.abandonment_email_sent = true) := by
  intro env db s
  refine ⟨?_, ?_, ?_, ?_⟩
  · intro h
    rw [FollowUpEmail_already_sent env db s h]
    rfl
  · intro h
    rw [AbandonmentEmail_already_sent env db s h]
    rfl
  · intro h
    constructor
    · rcases FollowUpEmail_cases env db s with hc | ⟨admin, -, hc⟩ <;> simp [hc, noop, h]
    · rcases AbandonmentEmail_cases env db s with hc | ⟨admin, -, hc⟩ <;> simp [hc, noop, h]
  · intro h
    constructor
    · rcases FollowUpEmail_cases env db s with hc | ⟨admin, -, hc⟩ <;> simp [hc, noop, h]
    · rcases AbandonmentEmail_cases env db s with hc | ⟨admin, -, hc⟩ <;> simp [hc, noop, h]

/-- C1 witness: with both flags already true, neither job attempts a send and
both flags stay true. -/
theorem C1_sent_flags_one_way_witness :
    (FollowUpEmail exEnv exDb sentSettings).attempts = [] ∧
    (AbandonmentEmail exEnv exDb sentSettings).attempts = [] ∧
    (FollowUpEmail exEnv exDb sentSettings).settings.follow_up_email_sent = true ∧
    (AbandonmentEmail exEnv exDb sentSettings).settings.abandonment_email_sent = true := by
  have h := C1_sent_flags_one_way exEnv exDb sentSettings
  exact ⟨h.1 rfl, h.2.1 rfl, (h.2.2.1 rfl).1, (h.2.2.2 rfl).2⟩

/-- C3: a follow-up run on an instance younger than 2 weeks attempts nothing;
with flag false, age at least 2 weeks, e-mail configured, tracking enabled and
an active superuser resolvable, it attempts exactly the one "follow-up" send,
sets the flag, and a second run afterwards attempts nothing. -/
theorem C3_follow_up_job_runs :
    ∀ (env : Env) (db : Db) (s : Settings),
      (∀ t, instance_creation_timestamp db = some t → env.now < t + weeks 2 →
        (FollowUpEmail env db s).attempts = []) ∧
      (∀ t admin, s.follow_up_email_sent = false →
        instance_creation_timestamp db = some t → t + weeks 2 ≤ env.now →
        env.email_configured = true → env.anon_tracking_enabled = true →
        oldestUserWhere (fun u => u.is_superuser && u.is_active) db.users = some admin →
        (FollowUpEmail env db s).attempts = [(admin.email, "follow-up")] ∧
        (FollowUpEmail env db s).settings.follow_up_email_sent = true ∧
        (FollowUpEmail env db (FollowUpEmail env db s).settings).attempts = []) := by
  intro env db s
  constructor
  · intro t hic hyoung
    have hold : olderThan env.now t (weeks 2) = false := by
      simp only [olderThan, decide_eq_false_iff_not]
      omega
    unfold FollowUpEmail
    by_cases hf : s.follow_up_email_sent
    · simp [hf, noop]
    · simp [hf, hic, hold, noop]
  · intro t admin hf hic hage hec hat hadmin
    have hold : olderThan env.now t (weeks 2) = true := by
      simp only [olderThan, decide_eq_true_eq]
      omega
    have hrun : (FollowUpEmail env db s).attempts = [(admin.email, "follow-up")] ∧
        (FollowUpEmail env db s).settings = { s with follow_up_email_sent := true } := by
      unfold FollowUpEmail send_follow_up_email
      simp [hf, hic, hold, hec, hat, hadmin]
    refine ⟨hrun.1, by rw [hrun.2], ?_⟩
    rw [FollowUpEmail_already_sent env db _ (by rw [hrun.2])]
    rfl

/-- C3 witness: a young instance yields no attempt; the passing configuration
yields exactly one attempt, the flag set, and an idle second run. -/
theorem C3_follow_up_job_runs_witness :
    (FollowUpEmail { exEnv with now := 0 } exActiveDb initSettings).attempts = [] ∧
    (FollowUpEmail exEnv exActiveDb initSettings).attempts =
      [(exActiveAdmin.email, "follow-up")] ∧
    (FollowUpEmail exEnv exActiveDb initSettings).settings.follow_up_email_sent = true ∧
    (FollowUpEmail exEnv exActiveDb
      (FollowUpEmail exEnv exActiveDb initSettings).settings).attempts = [] := by
  have h0 := (C3_follow_up_job_runs { exEnv with now := 0 } exActiveDb initSettings).1
    0 rfl (by decide)
  have h := (C3_follow_up_job_runs exEnv exActiveDb initSettings).2 0 exActiveAdmin
    rfl rfl (by decide) rfl rfl rfl
  exact ⟨h0, h.1, h.2.1, h.2.2⟩

/-- C4: when the e-mail subsystem throws, a run of either job that attempts a
send still sets its sent-flag and logs the caught failure; the job functions
are total, so the exception never propagates out of a run. -/
theorem C4_send_failure_caught_flag_still_set :
    ∀ (env : Env) (db : Db) (s : Settings), env.send_throws = true →
      ((FollowUpEmail env db s).attempts ≠ [] →
        (FollowUpEmail env db s).settings.follow_up_email_sent = true ∧
        ∃ e, ("Problem sending follow-up email: " ++ e) ∈ (FollowUpEmail env db s).logs) ∧
      ((AbandonmentEmail env db s).attempts ≠ [] →
        (AbandonmentEmail env db s).settings.abandonment_email_sent = true ∧
        ∃ e, ("Problem sending abandonment email: " ++ e) ∈
          (AbandonmentEmail env db s).logs) := by
  intro env db s hthrow
  constructor
  · intro hne
    rcases FollowUpEmail_cases env db s with hc | ⟨admin, -, hc⟩
    · rw [hc] at hne
      exact absurd rfl hne
    · rw [hc]
      refine ⟨rfl, ?_⟩
      refine ⟨"failed to send follow-up to " ++ admin.email, ?_⟩
      simp [sendTemplatedEmail, hthrow]
  · intro hne
    rcases AbandonmentEmail_cases env db s with hc | ⟨admin, -, hc⟩
    · rw [hc] at hne
      exact absurd rfl hne
    · rw [hc]
      refine ⟨rfl, ?_⟩
      refine ⟨"failed to send abandon to " ++ admin.email, ?_⟩
      simp [sendTemplatedEmail, hthrow]

/-- C4 witness: with a throwing e-mail subsystem, both jobs on their passing
configurations set their flags and log the failure. -/
theorem C4_send_failure_caught_flag_still_set_witness :
    (FollowUpEmail exThrowEnv exActiveDb initSettings).settings.follow_up_email_sent = true ∧
    (∃ e, ("Problem sending follow-up email: " ++ e) ∈
      (FollowUpEmail exThrowEnv exActiveDb initSettings).logs) ∧
    (AbandonmentEmail exThrowEnv exDb initSettings).settings.abandonment_email_sent = true ∧
    (∃ e, ("Problem sending abandonment email: " ++ e) ∈
      (AbandonmentEmail exThrowEnv exDb initSettings).logs) := by
  have h1 := (C4_send_failure_caught_flag_still_set exThrowEnv exActiveDb initSettings rfl).1
    (by decide)
  have h2 := (C4_send_failure_caught_flag_still_set exThrowEnv exDb initSettings rfl).2
    (by decide)
  exact ⟨h1.1, h1.2, h2.1, h2.2⟩

/-- C6: the abandonment job attempts a send only when its flag is false, e-mail
is configured and tracking is enabled; when additionally the predicate holds
and a superuser is resolvable, it attempts exactly the one "abandon" send and
sets the flag. -/
theorem C6_abandonment_job_gating :
    ∀ (env : Env) (db : Db) (s : Settings),
      ((AbandonmentEmail env db s).attempts ≠ [] →
        s.abandonment_email_sent = false ∧ env.email_configured = true ∧
          env.anon_tracking_enabled = true) ∧
      (∀ admin, s.abandonment_email_sent = false → env.email_configured = true →
        env.anon_tracking_enabled = true →
        should_send_abandoment_email_db env db = true →
        oldestUserWhere (fun u => u.is_superuser) db.users = some admin →
        (AbandonmentEmail env db s).attempts = [(admin.email, "abandon")] ∧
        (AbandonmentEmail env db s).settings.abandonment_email_sent = true) := by
  intro env db s
  constructor
  · intro hne
    by_cases ha : s.abandonment_email_sent
    · rw [AbandonmentEmail_noop_of_gate env db s (Or.inl ha)] at hne
      exact absurd rfl hne
    · by_cases hec : env.email_configured
      · by_cases hat : env.anon_tracking_enabled
        · exact ⟨by simpa using ha, hec, hat⟩
        · rw [AbandonmentEmail_noop_of_gate env db s (Or.inr (Or.inr (by simpa using hat)))]
            at hne
          exact absurd rfl hne
      · rw [AbandonmentEmail_noop_of_gate env db s (Or.inr (Or.inl (by simpa using hec)))]
          at hne
        exact absurd rfl hne
  · intro admin ha hec hat hshould hadmin
    unfold AbandonmentEmail send_abandoment_email_if_needed
    simp [ha, hec, hat, hshould, hadmin]

/-- C6 witness: the passing configuration attempts exactly one "abandon" send
and sets the flag; the gate conditions hold whenever an attempt occurred. -/
theorem C6_abandonment_job_gating_witness :
    (AbandonmentEmail exEnv exDb initSettings).attempts = [(exAdmin.email, "abandon")] ∧
    (AbandonmentEmail exEnv exDb initSettings).settings.abandonment_email_sent = true ∧
    initSettings.abandonment_email_sent = false ∧ exEnv.email_configured = true ∧
    exEnv.anon_tracking_enabled = true := by
  have h := (C6_abandonment_job_gating exEnv exDb initSettings).2 exAdmin
    rfl rfl rfl (by decide) rfl
  have hg := (C6_abandonment_job_gating exEnv exDb initSettings).1 (by decide)
  exact ⟨h.1, h.2, hg.1, hg.2.1, hg.2.2⟩

/-- C7: when the follow-up age gate passes but e-mail is unconfigured, tracking
is disabled, or no active superuser exists, the run attempts nothing and leaves
the state unchanged. -/
theorem C7_follow_up_silent_noop :
    ∀ (env : Env) (db : Db) (s : Settings) (t : Nat),
      s.follow_up_email_sent = false →
      instance_creation_timestamp db = some t →
      t + weeks 2 ≤ env.now →
      (env.email_configured = false ∨ env.anon_tracking_enabled = false ∨
        oldestUserWhere (fun u => u.is_superuser && u.is_active) db.users = none) →
      (FollowUpEmail env db s).attempts = [] ∧ (FollowUpEmail env db s).settings = s := by
  intro env db s t hf hic hage hfail
  have hold : olderThan env.now t (weeks 2) = true := by
    simp only [olderThan, decide_eq_true_eq]
    omega
  have : FollowUpEmail env db s = noop s := by
    unfold FollowUpEmail send_follow_up_email
    rcases hfail with h | h | h <;> simp [hf, hic, hold, h]
  rw [this]
  exact ⟨rfl, rfl⟩

/-- C7 witness: with e-mail not configured the passing age gate still yields a
silent no-op. -/
theorem C7_follow_up_silent_noop_witness :
    (FollowUpEmail noEmailEnv exActiveDb initSettings).attempts = [] ∧
    (FollowUpEmail noEmailEnv exActiveDb initSettings).settings = initSettings :=
  C7_follow_up_silent_noop noEmailEnv exActiveDb initSettings 0 rfl rfl (by decide)
    (Or.inl rfl)

/-- C9: the follow-up job resolves its recipient only among active superusers,
so when every superuser is inactive it attempts nothing and changes nothing,
while the abandonment job, which ignores `is_active`, can still send. -/
theorem C9_active_filter_asymmetry :
    (∀ (env : Env) (db : Db) (s : Settings),
      (∀ u ∈ db.users, u.is_superuser = true → u.is_active = false) →
        (FollowUpEmail env db s).attempts = [] ∧ (FollowUpEmail env db s).settings = s) ∧
    ((∀ u ∈ exDb.users, u.is_superuser = true → u.is_active = false) ∧
      (AbandonmentEmail exEnv exDb initSettings).attempts = [(exAdmin.email, "abandon")]) := by
  constructor
  · intro env db s h
    have hfil : db.users.filter (fun u => u.is_superuser && u.is_active) = [] := by
      rw [List.filter_eq_nil_iff]
      intro u hu
      simp only [Bool.and_eq_true, not_and]
      intro hsup
      simp [h u hu hsup]
    have hadmin : oldestUserWhere (fun u => u.is_superuser && u.is_active) db.users = none := by
      unfold oldestUserWhere
      rw [hfil]
      rfl
    rcases FollowUpEmail_cases env db s with hc | ⟨admin, ha, hc⟩
    · rw [hc]
      exact ⟨rfl, rfl⟩
    · rw [hadmin] at ha
      exact Option.noConfusion ha
  · exact ⟨by decide, rfl⟩

/-- C9 witness: the single superuser of `exDb` is inactive, so the follow-up
job on it attempts nothing and leaves the state unchanged. -/
theorem C9_active_filter_asymmetry_witness :
    (FollowUpEmail exEnv exDb initSettings).attempts = [] ∧
    (FollowUpEmail exEnv exDb initSettings).settings = initSettings :=
  C9_active_filter_asymmetry.1 exEnv exDb initSettings (by decide)

/-- C5 counterexample: in a state with no users, no activity rows and no view
rows, even under a favourable environment (flag false, e-mail configured,
tracking enabled, clock at 5 weeks) the abandonment run sends nothing, because
without users there is neither an instance-creation timestamp nor a resolvable
admin recipient. -/
theorem C5_no_users_means_no_send :
    (AbandonmentEmail exEnv emptyDb initSettings).attempts = [] ∧
    instance_creation_timestamp emptyDb = none ∧
    oldestUserWhere (fun u => u.is_superuser) emptyDb.users = none :=
  ⟨rfl, rfl, rfl⟩

/-- C5 amended: with no activity rows and no view rows, a single superuser who
joined at least 4 weeks ago, flag false, e-mail configured and tracking
enabled, the abandonment run attempts the "abandon" send and sets the flag. -/
theorem C5_amended_idle_instance_sends :
    ∀ (env : Env) (s : Settings) (u : User),
      u.is_superuser = true →
      u.date_joined + weeks 4 ≤ env.now →
      s.abandonment_email_sent = false →
      env.email_configured = true →
      env.anon_tracking_enabled = true →
      (AbandonmentEmail env { users := [u], activities := [], viewLogs := [] } s).attempts
          = [(u.email, "abandon")] ∧
      (AbandonmentEmail env { users := [u], activities := [], viewLogs := [] }
        s).settings.abandonment_email_sent = true := by
  intro env s u hsup h4 ha hec hat
  have hadmin :
      oldestUserWhere (fun v => v.is_superuser)
        ({ users := [u], activities := [], viewLogs := [] } : Db).users = some u := by
    simp [oldestUserWhere, List.filter, hsup, oldestBy]
  have hshould :
      should_send_abandoment_email_db env
        { users := [u], activities := [], viewLogs := [] } = true := by
    show should_send_abandoment_email env.now (some u.date_joined) (some u.date_joined)
      none none = true
    rw [should_send_spec]
    refine ⟨⟨u.date_joined, rfl, h4⟩, ?_, by simp, by simp⟩
    intro t ht
    injection ht with ht
    subst ht
    simp only [weeks] at h4 ⊢
    omega
  unfold AbandonmentEmail send_abandoment_email_if_needed
  simp [ha, hec, hat, hshould, hadmin]

/-- C5 amended witness: the concrete idle database with one (inactive)
superuser who joined 5 weeks ago receives the abandonment send. -/
theorem C5_amended_idle_instance_sends_witness :
    (AbandonmentEmail exEnv exDb initSettings).attempts = [(exAdmin.email, "abandon")] ∧
    (AbandonmentEmail exEnv exDb initSettings).settings.abandonment_email_sent = true :=
  C5_amended_idle_instance_sends exEnv initSettings exAdmin rfl (by decide) rfl rfl rfl

end FollowUpEmails

namespace Permissions

/-- C10: both permission lookups default to deny — with no entry at
`[groupId, databaseId, "details"]`, `getDetailsPermission` returns `"no"`, and
with no entry at `[groupId, permissionKey]`, `getApplicationPermission` returns
`"no"`. -/
theorem C10_permission_lookups_default_to_no :
    (∀ (permissions : GroupsPermissions) (groupId databaseId : Nat),
      getIn3 permissions groupId databaseId "details" = none →
        getDetailsPermission permissions groupId databaseId = "no") ∧
    (∀ (permissions : ApplicationPermissions) (groupId : Nat) (permissionKey : String),
      getIn2 permissions groupId permissionKey = none →
        getApplicationPermission permissions groupId permissionKey = "no") := by
  constructor
  · intro permissions groupId databaseId h
    simp [getDetailsPermission, h]
  · intro permissions groupId permissionKey h
    simp [getApplicationPermission, h]

/-- C10 witness: the empty permission maps have no entries, and both lookups
return `"no"` on them. -/
theorem C10_permission_lookups_default_to_no_witness :
    getDetailsPermission [] 1 2 = "no" ∧ getApplicationPermission [] 1 "setting" = "no" :=
  ⟨C10_permission_lookups_default_to_no.1 [] 1 2 rfl,
   C10_permission_lookups_default_to_no.2 [] 1 "setting" rfl⟩

end Permissions
